import Mathlib

set_option maxRecDepth 10000

/-!
Shallow embedding of `src/toobusy.js` (node-toobusy).

Module-level mutable variables become fields of `GState`; each public
function of the module becomes a pure function on `GState`.  JavaScript
numbers are modelled as rationals (all arithmetic performed by the module
is exact on the inputs the claims quantify over; the single place where a
JavaScript NaN arises, the first sampler tick with `lastTime` undefined,
is modelled explicitly via `Option` together with the `|| 0` guard of the
source).  `Math.random()` is modelled as an explicit draw `r` passed to
the busy-decision function.  `setInterval` / `clearInterval` are modelled
by a table of active timer ids (`activeTimers`) plus the stored handle
(`checkInterval`); callbacks are modelled as opaque ids (`Nat`).
-/

/-- JavaScript values as far as the public setters inspect them: a finite
number, NaN, a string, a boolean, null or undefined. -/
inductive JSVal where
  | num (q : ℚ)
  | nan
  | str (s : String)
  | boolean (b : Bool)
  | nullv
  | undef
  deriving DecidableEq

/-- JavaScript falsiness: `!v` is true exactly for 0, NaN, the empty
string, false, null and undefined. -/
def JSVal.falsy : JSVal → Bool
  | JSVal.num q => q = 0
  | JSVal.nan => true
  | JSVal.str s => s = ""
  | JSVal.boolean b => !b
  | JSVal.nullv => true
  | JSVal.undef => true

/-- The check `typeof v === "number"` (true for finite numbers and NaN). -/
def JSVal.isNumber : JSVal → Bool
  | JSVal.num _ => true
  | JSVal.nan => true
  | _ => false

/-- JavaScript `Math.round`: round half toward positive infinity,
`Math.round x = floor (x + 1/2)`.  `Rat.floor` is the floor function on
the rationals (it underlies the `FloorRing` instance of `ℚ`). -/
def jsRound (q : ℚ) : ℚ := (((q + 1/2).floor : ℤ) : ℚ)

deriving instance DecidableEq for Except

/-- The module state of toobusy.js: every `var` declared at lines 24-32 of
the source, plus a model of the host timer table.  `lastTime` is `none`
until the first sampler tick assigns it (in the source it is declared but
not initialised, so the first tick computes with `undefined`).
`activeTimers` is the set of recurring `setInterval` tasks currently
scheduled by the host runtime, and `nextTimer` a fresh-id counter;
`checkInterval` is the handle the module keeps. -/
structure GState where
  lastTime : Option ℚ
  highWater : ℚ
  interval : ℚ
  smoothingFactor : ℚ
  successiveLags : ℚ
  currentLag : ℚ
  checkInterval : Option Nat
  lagEventThreshold : ℚ
  lagListeners : List Nat
  easingListeners : List Nat
  activeTimers : List Nat
  nextTimer : Nat
  deriving DecidableEq

/-- Source lines 42-43: `pctToBlock = (currentLag - highWater) / highWater`.
In every reachable state `highWater` is positive (default 70, setter
enforces at least 10), so rational division agrees with the source. -/
def pctToBlock (currentLag highWater : ℚ) : ℚ :=
  (currentLag - highWater) / highWater

/-- The main export, source lines 38-44: `Math.random() < pctToBlock`,
with the uniform draw `r` in `[0,1)` made explicit. -/
def toobusy (s : GState) (r : ℚ) : Bool :=
  decide (r < pctToBlock s.currentLag s.highWater)

/-- Source lines 178-209, the effect of `start()` on module state: a new
recurring timer is scheduled (`setInterval`) and its handle stored in
`checkInterval`.  The previously stored timer is NOT cleared here.  The
closure locals `isLagging` and `lagTicks` of the new timer start at
`false` and `0`; they are modelled by `TickState` below. -/
def start (s : GState) : GState :=
  { s with
    checkInterval := some s.nextTimer
    activeTimers := s.nextTimer :: s.activeTimers
    nextTimer := s.nextTimer + 1 }

/-- Source lines 53-64, `toobusy.interval(newInterval)`: falsy argument
returns the current interval; non-number throws; the argument is rounded
and values below 16 throw; otherwise `currentLag` is reset to 0, the
interval stored, and `start()` called. -/
def toobusy.interval (s : GState) (newInterval : JSVal) :
    Except String (GState × ℚ) :=
  if newInterval.falsy then Except.ok (s, s.interval)
  else
    match newInterval with
    | JSVal.num q =>
        let q2 := jsRound q
        if q2 < 16 then Except.error "Interval should be greater than 16ms."
        else
          let s2 := start { s with currentLag := 0, interval := q2 }
          Except.ok (s2, s2.interval)
    | _ => Except.error "Interval must be a number."

/-- Source lines 70-72, `toobusy.lag()`: `Math.round(currentLag)`. -/
def toobusy.lag (s : GState) : ℚ := jsRound s.currentLag

/-- Source lines 85-95, `toobusy.maxLag(newLag)`: falsy argument returns
`highWater`; non-number throws; rounded values below 10 throw; otherwise
the rounded value is stored as `highWater`. -/
def toobusy.maxLag (s : GState) (newLag : JSVal) :
    Except String (GState × ℚ) :=
  if newLag.falsy then Except.ok (s, s.highWater)
  else
    match newLag with
    | JSVal.num q =>
        let q2 := jsRound q
        if q2 < 10 then Except.error "Maximum lag should be greater than 10ms."
        else Except.ok ({ s with highWater := q2 }, q2)
    | _ => Except.error "MaxLag must be a number."

/-- Source lines 105-113, `toobusy.consecutiveLags(threshold)`: falsy
argument returns `successiveLags`; non-number throws; otherwise the
rounded value is stored, with no lower-bound check. -/
def toobusy.consecutiveLags (s : GState) (threshold : JSVal) :
    Except String (GState × ℚ) :=
  if threshold.falsy then Except.ok (s, s.successiveLags)
  else
    match threshold with
    | JSVal.num q =>
        let q2 := jsRound q
        Except.ok ({ s with successiveLags := q2 }, q2)
    | _ => Except.error "threshold must be a number."

/-- Source lines 124-132, `toobusy.smoothingFactor(newFactor)`: falsy
argument returns the current factor; non-number throws; values outside
`(0,1]` throw; otherwise the factor is stored. -/
def toobusy.smoothingFactor (s : GState) (newFactor : JSVal) :
    Except String (GState × ℚ) :=
  if newFactor.falsy then Except.ok (s, s.smoothingFactor)
  else
    match newFactor with
    | JSVal.num q =>
        if q ≤ 0 ∨ 1 < q then
          Except.error "Smoothing factor should be in range ]0,1]."
        else Except.ok ({ s with smoothingFactor := q }, q)
    | _ => Except.error "NewFactor must be a number."

/-- Source lines 140-144, `toobusy.shutdown()`: `currentLag = 0`;
`checkInterval = clearInterval(checkInterval)` cancels the timer named by
the handle (a no-op when the handle is undefined) and stores `undefined`;
all LAG_EVENT listeners are removed.  EASING_EVENT listeners remain. -/
def toobusy.shutdown (s : GState) : GState :=
  { s with
    currentLag := 0
    activeTimers :=
      match s.checkInterval with
      | some id => s.activeTimers.erase id
      | none => s.activeTimers
    checkInterval := none
    lagListeners := [] }

/-- Source lines 146-148, `toobusy.started()`: `Boolean(checkInterval != null)`. -/
def toobusy.started (s : GState) : Bool := s.checkInterval.isSome

/-- Source lines 156-165, `toobusy.onLag(fn, threshold)`: a numeric
threshold is stored as the single module-wide `lagEventThreshold`;
otherwise the current `highWater` (via `toobusy.maxLag()` with no
argument) is stored.  The callback is appended to the LAG_EVENT
listeners.  `threshold = none` models an absent or non-number argument
(the source tests `typeof threshold === "number"`). -/
def toobusy.onLag (s : GState) (fn : Nat) (threshold : Option ℚ) : GState :=
  match threshold with
  | some t => { s with lagEventThreshold := t, lagListeners := s.lagListeners ++ [fn] }
  | none => { s with lagEventThreshold := s.highWater, lagListeners := s.lagListeners ++ [fn] }

/-- Source lines 171-173, `toobusy.onEasing(fn)`. -/
def toobusy.onEasing (s : GState) (fn : Nat) : GState :=
  { s with easingListeners := s.easingListeners ++ [fn] }

/-- The module variables at load time (source lines 24-32), before the
`start()` call at line 212. -/
def moduleDefaults : GState :=
  { lastTime := none
    highWater := 70
    interval := 500
    smoothingFactor := 1/3
    successiveLags := 1
    currentLag := 0
    checkInterval := none
    lagEventThreshold := -1
    lagListeners := []
    easingListeners := []
    activeTimers := []
    nextTimer := 0 }

/-- The module state right after loading: `start()` has run once (source
line 212), so one recurring timer is active. -/
def initState : GState := start moduleDefaults

/-- The state visible to one sampler tick (source lines 181-203): the
module variables `lastTime` and `currentLag`, plus the closure locals
`isLagging` and `lagTicks` of the enclosing `start()` call. -/
structure TickState where
  lastTime : Option ℚ
  currentLag : ℚ
  isLagging : Bool
  lagTicks : ℚ
  deriving DecidableEq

/-- Events emitted on the event bus by a tick. -/
inductive TEvent where
  | lag (v : ℚ)
  | easing (v : ℚ)
  deriving DecidableEq

/-- Source lines 182-186: the new smoothed lag computed by a tick.  With
`lastTime` undefined, `now - lastTime` is NaN, the smoothing expression
is NaN, and the `|| 0` guard substitutes 0.  Otherwise
`lag = max(0, (now - lastTime) - interval)` and
`currentLag = smoothingFactor * lag + (1 - smoothingFactor) * currentLag`
(the `|| 0` guard maps a computed 0 to itself, so it is the identity on
this branch). -/
def computeLag (interval smoothingFactor : ℚ) (lastTime : Option ℚ)
    (prev now : ℚ) : ℚ :=
  match lastTime with
  | none => 0
  | some t =>
      smoothingFactor * max 0 ((now - t) - interval)
        + (1 - smoothingFactor) * prev

/-- One sampler tick, source lines 181-203.  Configuration values are the
module variables read by the closure.  Returns the new tick state and the
list of events emitted on the bus. -/
def tickOnce (interval smoothingFactor successiveLags lagEventThreshold : ℚ)
    (st : TickState) (now : ℚ) : TickState × List TEvent :=
  let currentLag := computeLag interval smoothingFactor st.lastTime st.currentLag now
  if lagEventThreshold ≠ -1 ∧ currentLag > lagEventThreshold ∧ st.isLagging = false then
    let lagTicks := st.lagTicks + 1
    if lagTicks > successiveLags - 1 then
      (⟨some now, currentLag, true, lagTicks⟩, [TEvent.lag currentLag])
    else
      (⟨some now, currentLag, st.isLagging, lagTicks⟩, [])
  else
    if st.lagTicks > 0 ∧ st.lagTicks - 1 = 0 ∧ st.isLagging = true then
      (⟨some now, currentLag, false,
          if st.lagTicks > 0 then st.lagTicks - 1 else st.lagTicks⟩,
        [TEvent.easing currentLag])
    else
      (⟨some now, currentLag, st.isLagging,
          if st.lagTicks > 0 then st.lagTicks - 1 else st.lagTicks⟩, [])

/-- Runs the sampler tick once per element of `nows`, the wall-clock
timestamps at which the ticks fire, collecting emitted events. -/
def runTicks (interval smoothingFactor successiveLags lagEventThreshold : ℚ) :
    TickState → List ℚ → TickState × List TEvent
  | st, [] => (st, [])
  | st, now :: rest =>
      let p := tickOnce interval smoothingFactor successiveLags lagEventThreshold st now
      let p2 := runTicks interval smoothingFactor successiveLags lagEventThreshold p.1 rest
      (p2.1, p.2 ++ p2.2)

/-- The raw delay samples derived from tick timestamps, as the Sampler
contract describes them: `max 0 (elapsed - interval)` with `elapsed`
measured from the previous timestamp. -/
def rawSamples (interval t0 : ℚ) : List ℚ → List ℚ
  | [] => []
  | now :: rest => max 0 ((now - t0) - interval) :: rawSamples interval now rest

/-- The exponential smoothing recurrence of the Smoother contract:
`next = alpha * lag + (1 - alpha) * prev`. -/
def smoothNext (alpha lag prev : ℚ) : ℚ := alpha * lag + (1 - alpha) * prev

/-- Iterated exponential smoothing over a list of raw samples. -/
def smoothRun (alpha prev : ℚ) (ls : List ℚ) : ℚ :=
  ls.foldl (fun p l => smoothNext alpha l p) prev

/-- Concrete state used for the busy-decision witness: module defaults
with a smoothed lag of 150ms. -/
def busyState : GState := { moduleDefaults with currentLag := 150 }

/-- Projections of one tick: the new smoothed lag is `computeLag` and
`lastTime` becomes `now`, in every branch of the hysteresis logic. -/
lemma tickOnce_proj (i a sl thr : ℚ) (st : TickState) (now : ℚ) :
    (tickOnce i a sl thr st now).1.currentLag
        = computeLag i a st.lastTime st.currentLag now ∧
    (tickOnce i a sl thr st now).1.lastTime = some now := by
  unfold tickOnce
  dsimp only
  split
  · split <;> exact ⟨rfl, rfl⟩
  · split <;> exact ⟨rfl, rfl⟩

/-- Running the sampler over tick timestamps folds the smoothing
recurrence over the raw samples derived from consecutive timestamps. -/
lemma runTicks_currentLag (i a sl thr : ℚ) (nows : List ℚ) :
    ∀ (st : TickState) (t : ℚ), st.lastTime = some t →
      (runTicks i a sl thr st nows).1.currentLag
        = smoothRun a st.currentLag (rawSamples i t nows) := by
  induction nows with
  | nil => intro st t _; rfl
  | cons now rest ih =>
      intro st t h
      have hp := tickOnce_proj i a sl thr st now
      have step := ih (tickOnce i a sl thr st now).1 now hp.2
      unfold runTicks
      dsimp only
      rw [step, hp.1, h]
      rfl

/-- A successful `toobusy.maxLag` call changes only `highWater`: in
particular the captured `lagEventThreshold` is untouched. -/
lemma maxLag_ok_lagEventThreshold (u : GState) (w : JSVal) (u2 : GState) (q : ℚ)
    (h : toobusy.maxLag u w = Except.ok (u2, q)) :
    u2.lagEventThreshold = u.lagEventThreshold := by
  unfold toobusy.maxLag at h
  split at h
  · simp only [Except.ok.injEq, Prod.mk.injEq] at h
    rw [← h.1]
  · cases w with
    | num q0 =>
        dsimp only at h
        split at h
        · exact absurd h (by simp)
        · simp only [Except.ok.injEq, Prod.mk.injEq] at h
          rw [← h.1]
    | nan => exact absurd h (by simp)
    | str s0 => exact absurd h (by simp)
    | boolean b => exact absurd h (by simp)
    | nullv => exact absurd h (by simp)
    | undef => exact absurd h (by simp)

/-- C1: for every configuration with highWaterMs at least 10 and every
uniform draw r in [0,1), the busy decision computes
pctToBlock = (currentLagMs - highWaterMs) / highWaterMs and returns
r < pctToBlock; hence it is false whenever currentLagMs is at most
highWaterMs, true whenever currentLagMs is at least twice highWaterMs,
and in between it is true exactly on the draws below pctToBlock (linear
interpolation). -/
theorem C1_busy_decision (s : GState) (r : ℚ) (hw : 10 ≤ s.highWater)
    (hr0 : 0 ≤ r) (hr1 : r < 1) :
    (toobusy s r = decide (r < (s.currentLag - s.highWater) / s.highWater)) ∧
    (s.currentLag ≤ s.highWater → toobusy s r = false) ∧
    (2 * s.highWater ≤ s.currentLag → toobusy s r = true) ∧
    (toobusy s r = true ↔ r < pctToBlock s.currentLag s.highWater) := by
  have hpos : (0:ℚ) < s.highWater := by linarith
  refine ⟨rfl, ?_, ?_, ?_⟩
  · intro hle
    have hp : pctToBlock s.currentLag s.highWater ≤ 0 := by
      rw [pctToBlock, div_le_iff₀ hpos]
      linarith
    simp only [toobusy, decide_eq_false_iff_not, not_lt]
    exact le_trans hp hr0
  · intro hge
    have hp : 1 ≤ pctToBlock s.currentLag s.highWater := by
      rw [pctToBlock, le_div_iff₀ hpos]
      linarith
    simp only [toobusy, decide_eq_true_eq]
    exact lt_of_lt_of_le hr1 hp
  · simp [toobusy]

/-- Witness for C1 at a concrete input: highWater 70, smoothed lag 150,
draw 1/2. -/
theorem C1_busy_decision_witness :
    ((10:ℚ) ≤ busyState.highWater ∧ (0:ℚ) ≤ 1/2 ∧ (1/2:ℚ) < 1) ∧
    ((toobusy busyState (1/2)
        = decide ((1/2:ℚ) < (busyState.currentLag - busyState.highWater) / busyState.highWater)) ∧
     (busyState.currentLag ≤ busyState.highWater → toobusy busyState (1/2) = false) ∧
     (2 * busyState.highWater ≤ busyState.currentLag → toobusy busyState (1/2) = true) ∧
     (toobusy busyState (1/2) = true ↔ (1/2:ℚ) < pctToBlock busyState.currentLag busyState.highWater)) :=
  ⟨⟨by decide, by norm_num, by norm_num⟩,
   C1_busy_decision busyState (1/2) (by decide) (by norm_num) (by norm_num)⟩

/-- C4: for every smoothing factor alpha in (0,1] and every sequence of
tick timestamps, starting from currentLag = 0 the smoothed lag after the
ticks equals the fold of next = alpha * l + (1 - alpha) * prev over the
raw samples max(0, elapsed - interval); and on a tick with lastTime
undefined (invalid arithmetic) 0 is substituted. -/
theorem C4_smoothing_fold (i a sl thr : ℚ) (nows : List ℚ) (t0 c0 now : ℚ)
    (b b2 : Bool) (k k2 : ℚ) (ha : 0 < a) (ha2 : a ≤ 1) :
    (runTicks i a sl thr ⟨some t0, 0, b, k⟩ nows).1.currentLag
        = smoothRun a 0 (rawSamples i t0 nows) ∧
    (tickOnce i a sl thr ⟨none, c0, b2, k2⟩ now).1.currentLag = 0 := by
  constructor
  · exact runTicks_currentLag i a sl thr nows ⟨some t0, 0, b, k⟩ t0 rfl
  · exact (tickOnce_proj i a sl thr ⟨none, c0, b2, k2⟩ now).1

/-- Witness for C4: alpha = 1/3, interval 500, ticks at 600 and 1200
(raw samples 100 and 100, smoothed value 500/9). -/
theorem C4_smoothing_fold_witness :
    ((0:ℚ) < 1/3 ∧ (1/3:ℚ) ≤ 1) ∧
    ((runTicks 500 (1/3) 1 (-1) ⟨some 0, 0, false, 0⟩ [600, 1200]).1.currentLag
        = smoothRun (1/3) 0 (rawSamples 500 0 [600, 1200]) ∧
     (tickOnce 500 (1/3) 1 (-1) ⟨none, 5, true, 2⟩ 7).1.currentLag = 0) :=
  ⟨by norm_num,
   C4_smoothing_fold 500 (1/3) 1 (-1) [600, 1200] 0 5 7 false true 0 2
     (by norm_num) (by norm_num)⟩

/-- C7: after shutdown, started() is false, lag() is 0, every busy query
returns false for every nonnegative draw, lag-event subscriptions are
cleared while easing subscriptions are retained, and shutdown is
idempotent. -/
theorem C7_shutdown_resets (s : GState) (r : ℚ) (hw : 0 < s.highWater)
    (hr : 0 ≤ r) :
    toobusy.started (toobusy.shutdown s) = false ∧
    toobusy.lag (toobusy.shutdown s) = 0 ∧
    toobusy (toobusy.shutdown s) r = false ∧
    (toobusy.shutdown s).lagListeners = [] ∧
    (toobusy.shutdown s).easingListeners = s.easingListeners ∧
    toobusy.shutdown (toobusy.shutdown s) = toobusy.shutdown s := by
  refine ⟨rfl, ?_, ?_, rfl, rfl, ?_⟩
  · show jsRound 0 = 0
    with_unfolding_all decide
  · have hp : pctToBlock 0 s.highWater = -1 := by
      rw [pctToBlock, zero_sub, neg_div, div_self (ne_of_gt hw)]
    have hn : ¬ (r < pctToBlock 0 s.highWater) := by
      rw [hp]
      intro hc
      linarith
    exact decide_eq_false hn
  · rfl

/-- Witness for C7 at the freshly loaded module state with draw 0. -/
theorem C7_shutdown_resets_witness :
    ((0:ℚ) < initState.highWater ∧ (0:ℚ) ≤ 0) ∧
    (toobusy.started (toobusy.shutdown initState) = false ∧
     toobusy.lag (toobusy.shutdown initState) = 0 ∧
     toobusy (toobusy.shutdown initState) 0 = false ∧
     (toobusy.shutdown initState).lagListeners = [] ∧
     (toobusy.shutdown initState).easingListeners = initState.easingListeners ∧
     toobusy.shutdown (toobusy.shutdown initState) = toobusy.shutdown initState) :=
  ⟨⟨by decide, le_rfl⟩, C7_shutdown_resets initState 0 (by decide) le_rfl⟩

/-- C9: an explicit numeric threshold passed to onLag becomes the single
module-wide lag-event threshold; with no threshold the highWater at
registration time is captured; a later successful maxLag change does not
re-evaluate the captured threshold; and each registration overwrites the
one shared threshold. -/
theorem C9_onLag_threshold (s : GState) (fn fn2 : Nat) (t t2 : ℚ) (v : JSVal)
    (s2 : GState) (ret : ℚ)
    (h : toobusy.maxLag (toobusy.onLag s fn (some t)) v = Except.ok (s2, ret)) :
    (toobusy.onLag s fn (some t)).lagEventThreshold = t ∧
    (toobusy.onLag s fn none).lagEventThreshold = s.highWater ∧
    s2.lagEventThreshold = t ∧
    (toobusy.onLag (toobusy.onLag s fn (some t)) fn2 (some t2)).lagEventThreshold = t2 ∧
    (toobusy.onLag (toobusy.onLag s fn (some t)) fn2 none).lagEventThreshold
        = (toobusy.onLag s fn (some t)).highWater := by
  refine ⟨rfl, rfl, ?_, rfl, rfl⟩
  exact maxLag_ok_lagEventThreshold (toobusy.onLag s fn (some t)) v s2 ret h

/-- Witness for C9: register with threshold 5, then change maxLag to 100;
the captured threshold stays 5, and re-registering with 7 overwrites it. -/
theorem C9_onLag_threshold_witness :
    (toobusy.maxLag (toobusy.onLag initState 0 (some 5)) (JSVal.num 100)
        = Except.ok ({ toobusy.onLag initState 0 (some 5) with highWater := 100 }, 100)) ∧
    ((toobusy.onLag initState 0 (some 5)).lagEventThreshold = 5 ∧
     (toobusy.onLag initState 0 none).lagEventThreshold = initState.highWater ∧
     ({ toobusy.onLag initState 0 (some 5) with highWater := 100 } : GState).lagEventThreshold = 5 ∧
     (toobusy.onLag (toobusy.onLag initState 0 (some 5)) 1 (some 7)).lagEventThreshold = 7 ∧
     (toobusy.onLag (toobusy.onLag initState 0 (some 5)) 1 none).lagEventThreshold
        = (toobusy.onLag initState 0 (some 5)).highWater) :=
  ⟨by with_unfolding_all decide,
   C9_onLag_threshold initState 0 1 5 7 (JSVal.num 100)
     { toobusy.onLag initState 0 (some 5) with highWater := 100 } 100
     (by with_unfolding_all decide)⟩

/-- C10: every falsy argument (0, NaN, false, null, undefined, empty
string) makes each of the four setters act as a getter: the stored value
is returned, no error is raised, and the state is unchanged. -/
theorem C10_falsy_acts_as_getter (s : GState) (v : JSVal) (h : v.falsy = true) :
    toobusy.interval s v = Except.ok (s, s.interval) ∧
    toobusy.maxLag s v = Except.ok (s, s.highWater) ∧
    toobusy.consecutiveLags s v = Except.ok (s, s.successiveLags) ∧
    toobusy.smoothingFactor s v = Except.ok (s, s.smoothingFactor) := by
  simp [toobusy.interval, toobusy.maxLag, toobusy.consecutiveLags,
    toobusy.smoothingFactor, h]

/-- Witness for C10 at the falsy argument 0 in the freshly loaded state. -/
theorem C10_falsy_acts_as_getter_witness :
    (JSVal.falsy (JSVal.num 0) = true) ∧
    (toobusy.interval initState (JSVal.num 0) = Except.ok (initState, initState.interval) ∧
     toobusy.maxLag initState (JSVal.num 0) = Except.ok (initState, initState.highWater) ∧
     toobusy.consecutiveLags initState (JSVal.num 0)
        = Except.ok (initState, initState.successiveLags) ∧
     toobusy.smoothingFactor initState (JSVal.num 0)
        = Except.ok (initState, initState.smoothingFactor)) :=
  ⟨by decide, C10_falsy_acts_as_getter initState (JSVal.num 0) (by decide)⟩

/-- C2 counterexample: with lagEventThreshold 10, consecutiveLagThreshold
1 and smoothing factor 1, the smoothed lag is 500 on both ticks, above
the threshold throughout; the first tick enters LAGGING, yet the second
tick decrements lagTicks from 1 to 0 and emits the easing event — while
the lag never dropped to the threshold.  This refutes the claim that
consecutiveTicks is decremented, and easing emitted, only on a tick with
currentLagMs at most lagEventThresholdMs. -/
theorem C2_easing_above_threshold_cex :
    ((tickOnce 500 1 1 10 ⟨some 0, 0, false, 0⟩ 1000).1.isLagging = true) ∧
    ((tickOnce 500 1 1 10 ⟨some 0, 0, false, 0⟩ 1000).1.currentLag = 500 ∧
      (10:ℚ) < 500 ∧
      (tickOnce 500 1 1 10 ⟨some 0, 0, false, 0⟩ 1000).1.lagTicks = 1) ∧
    (tickOnce 500 1 1 10 (tickOnce 500 1 1 10 ⟨some 0, 0, false, 0⟩ 1000).1 2000
        = (⟨some 2000, 500, false, 0⟩, [TEvent.easing 500])) := by
  with_unfolding_all decide

/-- C2 amended: while the state is LAGGING, every tick takes the easing
branch regardless of the current lag (the lag branch requires the state
to be NORMAL), so consecutiveTicks is decremented on such ticks even when
currentLagMs stays above lagEventThresholdMs, and on the tick where it
goes from 1 to 0 the machine transitions to NORMAL and emits the easing
notification carrying the current smoothed lag — whatever the lag is. -/
theorem C2_easing_while_lagging (i a sl thr : ℚ) (st : TickState) (now : ℚ)
    (h1 : st.isLagging = true) (h2 : st.lagTicks = 1) :
    tickOnce i a sl thr st now
      = (⟨some now, computeLag i a st.lastTime st.currentLag now, false, 0⟩,
         [TEvent.easing (computeLag i a st.lastTime st.currentLag now)]) := by
  unfold tickOnce
  dsimp only
  rw [if_neg, if_pos]
  · rw [if_pos (by rw [h2]; norm_num)]
    rw [h2]
    norm_num
  · refine ⟨by rw [h2]; norm_num, by rw [h2]; norm_num, h1⟩
  · intro hc
    rw [h1] at hc
    exact absurd hc.2.2 (by simp)

/-- Witness for C2 amended: a LAGGING state with lagTicks 1 emits easing
on the next tick although the smoothed lag 500 is far above threshold 10. -/
theorem C2_easing_while_lagging_witness :
    ((⟨some 0, 0, true, 1⟩ : TickState).isLagging = true ∧
     (⟨some 0, 0, true, 1⟩ : TickState).lagTicks = 1) ∧
    (tickOnce 500 1 1 10 ⟨some 0, 0, true, 1⟩ 1000
        = (⟨some 1000, computeLag 500 1 (some 0) 0 1000, false, 0⟩,
           [TEvent.easing (computeLag 500 1 (some 0) 0 1000)])) :=
  ⟨⟨rfl, rfl⟩, C2_easing_while_lagging 500 1 1 10 ⟨some 0, 0, true, 1⟩ 1000 rfl rfl⟩

/-- C3: evaluating the sample-interval setter at the failing input.  In
the freshly loaded module state exactly one sampler timer (id 0) is
active and held in checkInterval; interval(500) succeeds, but start() is
called without clearInterval, so afterwards TWO recurring timers are
active (ids 1 and 0) — the old task was never cancelled, contradicting
the claimed at-most-one-active-task invariant. -/
theorem C3_interval_timer_leak :
    initState.activeTimers = [0] ∧
    initState.checkInterval = some 0 ∧
    toobusy.interval initState (JSVal.num 500)
        = Except.ok (start { initState with currentLag := 0, interval := 500 }, 500) ∧
    (start { initState with currentLag := 0, interval := 500 }).activeTimers = [1, 0] ∧
    (start { initState with currentLag := 0, interval := 500 }).checkInterval = some 1 := by
  with_unfolding_all decide

/-- C5 counterexample: calling the smoothing-factor setter with 0 does
NOT raise a validation error — 0 is falsy, so the call acts as a getter
and returns the stored factor 1/3. -/
theorem C5_zero_is_getter_cex :
    toobusy.smoothingFactor initState (JSVal.num 0) = Except.ok (initState, 1/3) := by
  with_unfolding_all decide

/-- C5 amended: calling the smoothing-factor setter with 0 acts as a
getter (0 is falsy): it returns the stored factor, raises no error and
leaves the state unchanged; calling it with 1.5 or with a truthy
non-numeric argument raises a validation error (leaving the stored
factor unchanged, since the throw happens before any assignment);
calling it with 0.5 succeeds and stores 0.5. -/
theorem C5_smoothing_validation (s : GState) (v : JSVal)
    (hv1 : v.falsy = false) (hv2 : v.isNumber = false) :
    toobusy.smoothingFactor s (JSVal.num 0) = Except.ok (s, s.smoothingFactor) ∧
    toobusy.smoothingFactor s (JSVal.num (3/2))
        = Except.error "Smoothing factor should be in range ]0,1]." ∧
    toobusy.smoothingFactor s v = Except.error "NewFactor must be a number." ∧
    toobusy.smoothingFactor s (JSVal.num (1/2))
        = Except.ok ({ s with smoothingFactor := 1/2 }, 1/2) := by
  refine ⟨?_, ?_, ?_, ?_⟩
  · simp [toobusy.smoothingFactor, JSVal.falsy]
  · rw [toobusy.smoothingFactor, if_neg (by norm_num [JSVal.falsy])]
    rw [if_pos (by norm_num)]
  · cases v <;> simp_all [JSVal.falsy, JSVal.isNumber, toobusy.smoothingFactor]
  · rw [toobusy.smoothingFactor, if_neg (by norm_num [JSVal.falsy])]
    rw [if_neg (by norm_num)]

/-- Witness for C5 amended at the loaded state, with the truthy
non-number argument being a nonempty string. -/
theorem C5_smoothing_validation_witness :
    (JSVal.falsy (JSVal.str "x") = false ∧ JSVal.isNumber (JSVal.str "x") = false) ∧
    (toobusy.smoothingFactor initState (JSVal.num 0)
        = Except.ok (initState, initState.smoothingFactor) ∧
     toobusy.smoothingFactor initState (JSVal.num (3/2))
        = Except.error "Smoothing factor should be in range ]0,1]." ∧
     toobusy.smoothingFactor initState (JSVal.str "x")
        = Except.error "NewFactor must be a number." ∧
     toobusy.smoothingFactor initState (JSVal.num (1/2))
        = Except.ok ({ initState with smoothingFactor := 1/2 }, 1/2)) :=
  ⟨⟨rfl, rfl⟩, C5_smoothing_validation initState (JSVal.str "x") rfl rfl⟩

/-- C6 counterexample: 15.5 is a numeric argument strictly below 16, yet
the sample-interval setter succeeds — the source rounds first
(Math.round(15.5) = 16) and only then compares against 16.  This refutes
the claim that every numeric ms below 16 fails. -/
theorem C6_belowSixteen_succeeds_cex :
    ((31:ℚ)/2 < 16) ∧
    toobusy.interval initState (JSVal.num (31/2))
        = Except.ok (start { initState with currentLag := 0, interval := 16 }, 16) := by
  with_unfolding_all decide

/-- C6 amended: the sample-interval setter fails on a truthy non-numeric
argument, and on a nonzero numeric argument whose rounded value is below
16; a falsy argument (such as 0) acts as a getter instead of failing, and
numeric arguments that round to at least 16 (such as 15.5) succeed.
Calling it with 16 succeeds, stores 16 as the interval and resets the
smoothed lag to 0 (and starts a fresh sampler timer). -/
theorem C6_interval_validation (s : GState) (v : JSVal) (q : ℚ)
    (hv1 : v.falsy = false) (hv2 : v.isNumber = false)
    (hq0 : q ≠ 0) (hq : jsRound q < 16) :
    toobusy.interval s v = Except.error "Interval must be a number." ∧
    toobusy.interval s (JSVal.num q)
        = Except.error "Interval should be greater than 16ms." ∧
    toobusy.interval s (JSVal.num 16)
        = Except.ok (start { s with currentLag := 0, interval := jsRound 16 }, jsRound 16) ∧
    jsRound 16 = 16 ∧
    (start { s with currentLag := 0, interval := jsRound 16 }).interval = 16 ∧
    (start { s with currentLag := 0, interval := jsRound 16 }).currentLag = 0 := by
  have h16 : jsRound 16 = 16 := by with_unfolding_all decide
  refine ⟨?_, ?_, ?_, h16, ?_, rfl⟩
  · cases v <;> simp_all [JSVal.falsy, JSVal.isNumber, toobusy.interval]
  · rw [toobusy.interval, if_neg (by simp [JSVal.falsy, hq0])]
    dsimp only
    rw [if_pos hq]
  · rw [toobusy.interval, if_neg (by norm_num [JSVal.falsy])]
    dsimp only
    rw [if_neg (by rw [h16]; norm_num)]
    rfl
  · show jsRound 16 = 16
    exact h16

/-- Witness for C6 amended: the non-number is a nonempty string and the
rejected numeric argument is 15 (which rounds to 15, below 16). -/
theorem C6_interval_validation_witness :
    (JSVal.falsy (JSVal.str "x") = false ∧ JSVal.isNumber (JSVal.str "x") = false ∧
     (15:ℚ) ≠ 0 ∧ jsRound 15 < 16) ∧
    (toobusy.interval initState (JSVal.str "x") = Except.error "Interval must be a number." ∧
     toobusy.interval initState (JSVal.num 15)
        = Except.error "Interval should be greater than 16ms." ∧
     toobusy.interval initState (JSVal.num 16)
        = Except.ok (start { initState with currentLag := 0, interval := jsRound 16 }, jsRound 16) ∧
     jsRound 16 = 16 ∧
     (start { initState with currentLag := 0, interval := jsRound 16 }).interval = 16 ∧
     (start { initState with currentLag := 0, interval := jsRound 16 }).currentLag = 0) :=
  ⟨⟨rfl, rfl, by norm_num, by with_unfolding_all decide⟩,
   C6_interval_validation initState (JSVal.str "x") 15 rfl rfl (by norm_num)
     (by with_unfolding_all decide)⟩

/-- C8 counterexample: the consecutive-lag-threshold setter accepts -3
(a truthy number), stores -3, and -3 is below 1 — the claimed invariant
that every non-failing call leaves an integer at least 1 is violated. -/
theorem C8_no_lower_bound_cex :
    toobusy.consecutiveLags initState (JSVal.num (-3))
        = Except.ok ({ initState with successiveLags := -3 }, -3) ∧
    ({ initState with successiveLags := -3 } : GState).successiveLags < 1 := by
  with_unfolding_all decide

/-- C8 amended: the setter fails on truthy non-numeric arguments, and on
any nonzero numeric argument it succeeds and stores the rounded value —
an integer, but with no lower bound enforced, so stored values below 1
are possible. -/
theorem C8_consecutiveLags_rounds (s : GState) (v : JSVal) (q : ℚ)
    (hv1 : v.falsy = false) (hv2 : v.isNumber = false) (hq0 : q ≠ 0) :
    toobusy.consecutiveLags s v = Except.error "threshold must be a number." ∧
    toobusy.consecutiveLags s (JSVal.num q)
        = Except.ok ({ s with successiveLags := jsRound q }, jsRound q) ∧
    jsRound q = (((q + 1/2).floor : ℤ) : ℚ) := by
  refine ⟨?_, ?_, rfl⟩
  · cases v <;> simp_all [JSVal.falsy, JSVal.isNumber, toobusy.consecutiveLags]
  · rw [toobusy.consecutiveLags, if_neg (by simp [JSVal.falsy, hq0])]

/-- Witness for C8 amended with the stored value -3 (below 1). -/
theorem C8_consecutiveLags_rounds_witness :
    (JSVal.falsy (JSVal.str "x") = false ∧ JSVal.isNumber (JSVal.str "x") = false ∧
     (-3:ℚ) ≠ 0) ∧
    (toobusy.consecutiveLags initState (JSVal.str "x")
        = Except.error "threshold must be a number." ∧
     toobusy.consecutiveLags initState (JSVal.num (-3))
        = Except.ok ({ initState with successiveLags := jsRound (-3) }, jsRound (-3)) ∧
     jsRound (-3) = ((((-3:ℚ) + 1/2).floor : ℤ) : ℚ)) :=
  ⟨⟨rfl, rfl, by norm_num⟩,
   C8_consecutiveLags_rounds initState (JSVal.str "x") (-3) rfl rfl (by norm_num)⟩
